import Mathlib

/-!
# Verification of the OSC bridge mode (`osc.py`)

A shallow embedding of the OSC interface mode for pyprocgame
(`OSC_Mode` in `osc.py`).  Python floats arriving in OSC payloads are
modelled as rationals (`ℚ`), Python's unbounded `int` as `ℤ`/`ℕ`,
exceptions as `Except String` (carrying the exception class name), and
all externally visible actions (event-queue appends, device operations,
outbound OSC messages, log warnings) as an explicit effect list.

External collaborators (the `pinproc.decode` hardware-numbering
function) are passed in as function parameters, exactly as the spec
lists them: out of scope, consumed through their interface.
-/

namespace OSCMode

/-- Python `int(x)` on a rational: truncation toward zero. -/
def pyint (q : ℚ) : ℤ := if 0 ≤ q then ⌊q⌋ else ⌈q⌉

/-- The two debounced switch event types appended to
`game.desktop.key_events` (`pinproc.EventTypeSwitchClosedDebounced` /
`pinproc.EventTypeSwitchOpenDebounced`). -/
inductive EventType where
  | switchClosedDebounced
  | switchOpenDebounced
deriving DecidableEq

/-- Payload of an outbound OSC message: `client_send_OSC_message`
is called with either a plain integer (switch state, `+`-addressed LED
brightness) or a Python list (named-LED brightness list). -/
inductive Val where
  | num : ℤ → Val
  | list : List ℤ → Val
deriving DecidableEq

/-- One externally visible action of the mode. -/
inductive Effect where
  /-- an entry appended to `game.desktop.key_events` -/
  | keyEvent : EventType → ℕ → Effect
  /-- `game.lamps[name].enable()` -/
  | lampEnable : String → Effect
  /-- `game.lamps[name].disable()` -/
  | lampDisable : String → Effect
  /-- `game.logger.warning(...)` for an unknown lamp -/
  | logWarning : String → Effect
  /-- `game.leds[name].color(brightness)` -/
  | ledColor : String → List ℤ → Effect
  /-- `game.proc.PRLED_color(board, output, brightness)` -/
  | prledColor : ℤ → ℤ → ℤ → Effect
  /-- `game.coils[name].pulse()` -/
  | coilPulse : String → Effect
  /-- `client_send_OSC_message(category, name, data)` -/
  | sendOSC : String → String → Val → Effect
deriving DecidableEq

/-- A switch in the game's switch registry: its name (registry key),
hardware number, current boolean state and time of last state change
(`None` when never changed). -/
structure Switch where
  name : String
  number : ℕ
  state : Bool
  last_changed : Option ℚ
deriving DecidableEq

/-- The slice of the `game` object the mode reads: the four device
registries.  Lamps, LEDs and coils only matter through name membership
and the effects applied to them, so they are carried as name lists. -/
structure Game where
  switches : List Switch
  lamps : List String
  leds : List String
  coils : List String
deriving DecidableEq

/-- The mutable fields of `OSC_Mode` that the message handlers and the
tick read and write (set up in `OSC_Mode.__init__`). -/
structure ModeState where
  clientIP : Option String
  clientPort : ℕ
  client_needs_sync : Bool
  do_we_have_a_client : Bool
  clientTuple : Option (String × ℕ)
  last_loop_time : ℚ
deriving DecidableEq

/-- `OSC_Mode.__init__`: `client_needs_sync = False`,
`do_we_have_a_client = False`, `last_loop_time = 1`; `clientIP` and
`clientPort` from the constructor arguments; no client tuple yet. -/
def init_state (clientIP : Option String) (clientPort : ℕ) : ModeState :=
  { clientIP := clientIP
    clientPort := clientPort
    client_needs_sync := false
    do_we_have_a_client := false
    clientTuple := none
    last_loop_time := 1 }

/-! ## The brightness encoder `convertToMask` -/

/-- Loop state of `convertToMask`: `whole_num` (count of bits set so
far), `schedule` (the mask under construction) and `count` (the running
fractional accumulator). -/
structure MaskState where
  whole_num : ℤ
  schedule : ℕ
  count : ℚ
deriving DecidableEq

/-- One iteration of the `for _i in range(32)` loop of `convertToMask`:
`count += number; if int(count) > whole_num: schedule |= 1;
whole_num += 1; schedule <<= 1`. -/
def maskStep (number : ℚ) (s : MaskState) : MaskState :=
  let count := s.count + number
  if pyint count > s.whole_num then
    { whole_num := s.whole_num + 1, schedule := (s.schedule ||| 1) <<< 1, count := count }
  else
    { whole_num := s.whole_num, schedule := s.schedule <<< 1, count := count }

/-- The loop state of `convertToMask` after `k` iterations, starting
from `whole_num = 0`, `schedule = 0`, `count = 0`. -/
def maskIter (number : ℚ) : ℕ → MaskState
  | 0 => { whole_num := 0, schedule := 0, count := 0 }
  | k + 1 => maskStep number (maskIter number k)

/-- `convertToMask(number)`: run the loop 32 times and return
`schedule`. -/
def convertToMask (number : ℚ) : ℕ := (maskIter number 32).schedule

/-- Number of set bits of a natural number. -/
def popcount (n : ℕ) : ℕ :=
  if h : n = 0 then 0 else n % 2 + popcount (n / 2)
termination_by n
decreasing_by exact Nat.div_lt_self (Nat.pos_of_ne_zero h) one_lt_two

/-! ## String helpers (Python semantics) -/

/-- Python `str.split(sep)` for a single-character separator, on the
character list: split at every occurrence of `sep`; adjacent separators
and separators at either end produce empty fragments. -/
def splitOnChar (sep : Char) : List Char → List (List Char)
  | [] => [[]]
  | c :: rest =>
    if c == sep then [] :: splitOnChar sep rest
    else
      match splitOnChar sep rest with
      | [] => [[c]]
      | h :: t => (c :: h) :: t

/-- Python `s.split(sep)` for a one-character separator. -/
def pysplit (s : String) (sep : Char) : List String :=
  (splitOnChar sep s.data).map String.mk

/-- Python `s.strip("+")`: remove leading and trailing `'+'`
characters. -/
def pystrip_plus (s : String) : String :=
  String.mk (((s.data.dropWhile (fun c => c == '+')).reverse.dropWhile
    (fun c => c == '+')).reverse)

/-- Python `s.startswith("+")`. -/
def startsWithPlus (s : String) : Bool :=
  match s.data with
  | c :: _ => c == '+'
  | [] => false

/-- Digit-list accumulator for `pyParseInt`; `none` until at least one
digit has been consumed, `none` forever on a non-digit. -/
def parseDigits : List Char → Option ℕ → Option ℕ
  | [], acc => acc
  | c :: rest, acc =>
    if c.isDigit then
      parseDigits rest (some ((acc.getD 0) * 10 + (c.toNat - '0'.toNat)))
    else none

/-- Python `int(s)` on a string: an optionally `'-'`-signed digit
string parses to its value, anything else raises `ValueError`. -/
def pyParseInt (s : String) : Except String ℤ :=
  match s.data with
  | '-' :: rest =>
    match parseDigits rest none with
    | some n => Except.ok (-(n : ℤ))
    | none => Except.error "ValueError"
  | l =>
    match parseDigits l none with
    | some n => Except.ok ((n : ℤ))
    | none => Except.error "ValueError"

/-! ## Category handlers -/

/-- Switch-name resolution of `process_switch` (and
`set_initial_closed_switches`): the registry lookup
`game.switches[switchname].number` when the name is present, otherwise
the hardware-numbering fallback `pinproc.decode(machine_type, name)`,
passed in as the function `decode`. -/
def switch_number (decode : String → ℕ) (g : Game) (switchname : String) : ℕ :=
  match g.switches.find? (fun sw => sw.name == switchname) with
  | some sw => sw.number
  | none => decode switchname

/-- `process_switch(switchname, data)`: resolve the switch number,
then `data[0] == 1.0` appends a closed debounced event,
`data[0] == 0.0` an open one, and any other value falls through the
`if`/`elif` with no action. -/
def process_switch (decode : String → ℕ) (g : Game) (switchname : String)
    (data : List ℚ) : Except String (List Effect) :=
  let n := switch_number decode g switchname
  match data[0]? with
  | none => Except.error "IndexError"
  | some d =>
    if d = 1 then
      Except.ok [Effect.keyEvent EventType.switchClosedDebounced n]
    else if d = 0 then
      Except.ok [Effect.keyEvent EventType.switchOpenDebounced n]
    else
      Except.ok []

/-- `process_lamp(lampname, data)`: for a known lamp, `data[0] >= 1`
enables it, `data[0] == 0` disables it, and otherwise the code executes
`self.game.lamps[lampname].schedule(self.convertToMask(data[0]), 0, now=True)`.
`convertToMask` is declared without a `self` parameter, so that bound
instance-method call passes two arguments (`self` and `data[0]`) to a
one-parameter function and raises `TypeError` before `schedule` runs.
An unknown lamp logs a warning and does nothing else. -/
def process_lamp (g : Game) (lampname : String) (data : List ℚ) :
    Except String (List Effect) :=
  if g.lamps.contains lampname then
    match data[0]? with
    | none => Except.error "IndexError"
    | some d =>
      if 1 ≤ d then Except.ok [Effect.lampEnable lampname]
      else if d = 0 then Except.ok [Effect.lampDisable lampname]
      else Except.error "TypeError"
  else
    Except.ok [Effect.logWarning lampname]

/-- `process_LED(LED, data)`: scale `data[0]` to `int(data[0]*255)`.
A target starting with `'+'` is stripped of `'+'`, split on `'-'` into
board address and LED output, and sent to `PRLED_color`; any other
target is an unguarded lookup `self.game.leds[LED]` (raising `KeyError`
when absent) followed by `.color(brightness)`.  Both successful paths
end by sending one `led-label` reply naming the original target. -/
def process_LED (g : Game) (LED : String) (data : List ℚ) :
    Except String (List Effect) :=
  match data[0]? with
  | none => Except.error "IndexError"
  | some d =>
    if startsWithPlus LED then
      let LEDpart := pysplit (pystrip_plus LED) '-'
      let brightness := pyint (d * 255)
      match LEDpart[0]? with
      | none => Except.error "IndexError"
      | some b0 =>
        match pyParseInt b0 with
        | Except.error e => Except.error e
        | Except.ok board =>
          match LEDpart[1]? with
          | none => Except.error "IndexError"
          | some o0 =>
            match pyParseInt o0 with
            | Except.error e => Except.error e
            | Except.ok output =>
              Except.ok [Effect.prledColor board output brightness,
                Effect.sendOSC "led-label" LED (Val.num brightness)]
    else
      if g.leds.contains LED then
        Except.ok [Effect.ledColor LED [pyint (d * 255)],
          Effect.sendOSC "led-label" LED (Val.list [pyint (d * 255)])]
      else
        Except.error "KeyError"

/-- `process_coil(coilname, data)`: pulse a known coil; an unknown coil
name fails the guard `if coilname in self.game.coils` and the call does
nothing at all.  The payload is never inspected. -/
def process_coil (g : Game) (coilname : String) (_data : List ℚ) :
    Except String (List Effect) :=
  if g.coils.contains coilname then Except.ok [Effect.coilPulse coilname]
  else Except.ok []

/-! ## Message dispatch and session binding -/

/-- The client-binding block of `process_message` (run on every
non-refresh message): when `do_we_have_a_client` is false, take the
configured `clientIP` if one was given (Python truthiness: `None` and
`""` both count as unset), otherwise the sender's address, build
`clientTuple` from it and the configured port, and mark the client
present (`setup_OSC_client`).  When a client is already present the
block is skipped entirely. -/
def bind_client (s : ModeState) (client_address : String × ℕ) : ModeState :=
  if s.do_we_have_a_client then s
  else
    let ip := match s.clientIP with
      | none => client_address.1
      | some ip0 => if ip0 == "" then client_address.1 else ip0
    { s with clientIP := some ip,
             clientTuple := some (ip, s.clientPort),
             do_we_have_a_client := true }

/-- The `if`/`elif` category dispatch of `process_message`: `sw`,
`lamp`, `led`/`LED`, `coil`; any other category falls through with no
action. -/
def route_category (decode : String → ℕ) (g : Game) (cat name : String)
    (data : List ℚ) : Except String (List Effect) :=
  if cat == "sw" then process_switch decode g name data
  else if cat == "lamp" then process_lamp g name data
  else if cat == "led" || cat == "LED" then process_LED g name data
  else if cat == "coil" then process_coil g name data
  else Except.ok []

/-- `process_message` on the already-split address: part 1 is the
category (`"refresh"` sets `client_needs_sync` and returns at once,
before the binding block); part 2 is the target name; missing parts
raise `IndexError`.  The returned `ModeState` is the mode's state after
the call — mutations persist even when the handler then raises. -/
def process_parts (decode : String → ℕ) (g : Game) (s : ModeState)
    (parts : List String) (data : List ℚ) (client_address : String × ℕ) :
    ModeState × Except String (List Effect) :=
  match parts[1]? with
  | none => (s, Except.error "IndexError")
  | some cat =>
    if cat == "refresh" then ({ s with client_needs_sync := true }, Except.ok [])
    else
      match parts[2]? with
      | none => (s, Except.error "IndexError")
      | some name =>
        (bind_client s client_address, route_category decode g cat name data)

/-- `process_message(addr, tags, data, client_address)`: split the OSC
address on `"/"` and dispatch. -/
def process_message (decode : String → ℕ) (g : Game) (s : ModeState)
    (addr : String) (data : List ℚ) (client_address : String × ℕ) :
    ModeState × Except String (List Effect) :=
  process_parts decode g s (pysplit addr '/') data client_address

/-! ## Outbound synchronizer -/

/-- `client_update_all_switches`: one `"sw"` message per switch in the
registry, with data `1` when the switch state is `True` and `0`
otherwise. -/
def client_update_all_switches (g : Game) : List Effect :=
  g.switches.map
    (fun sw => Effect.sendOSC "sw" sw.name (Val.num (if sw.state then 1 else 0)))

/-- `client_update_all`: full switch sync, then clear
`client_needs_sync`. -/
def client_update_all (g : Game) (s : ModeState) : ModeState × List Effect :=
  ({ s with client_needs_sync := false }, client_update_all_switches g)

/-- The change-detection guard of `mode_tick`: Python
`if switch.last_changed:` (falsy for `None` and for `0`) followed by
`if switch.last_changed > self.last_loop_time`. -/
def switch_changed_since (t : ℚ) (sw : Switch) : Bool :=
  match sw.last_changed with
  | none => false
  | some c => if c = 0 then false else decide (t < c)

/-- The change-detection messages of one `mode_tick` run: one `"sw"`
message per switch whose `last_changed` passes
`switch_changed_since`. -/
def changed_switch_messages (g : Game) (t : ℚ) : List Effect :=
  (g.switches.filter (switch_changed_since t)).map
    (fun sw => Effect.sendOSC "sw" sw.name (Val.num (if sw.state then 1 else 0)))

/-- `mode_tick()`: everything — the resync, the change-detection loop
and the `last_loop_time = time.time()` update — sits inside
`if self.do_we_have_a_client:`; without a client the tick does nothing
at all.  `now` stands for `time.time()`. -/
def mode_tick (g : Game) (s : ModeState) (now : ℚ) : ModeState × List Effect :=
  if s.do_we_have_a_client then
    let p := if s.client_needs_sync then client_update_all g s else (s, [])
    ({ p.1 with last_loop_time := now },
     p.2 ++ changed_switch_messages g s.last_loop_time)
  else
    (s, [])

/-- Recognizer for the LED confirmation reply
`client_send_OSC_message("led-label", ...)`. -/
def isLedLabelMsg : Effect → Bool
  | Effect.sendOSC c _ _ => c == "led-label"
  | _ => false

/-! ## Concrete fixtures for counterexamples and witnesses -/

/-- A trivial stand-in for `pinproc.decode`. -/
def dec0 : String → ℕ := fun _ => 0

/-- A decode stand-in returning 7, to observe the fallback path. -/
def dec7 : String → ℕ := fun _ => 7

/-- A game with one switch `rollover1` (number 3, open, never
changed). -/
def g1 : Game :=
  { switches := [{ name := "rollover1", number := 3, state := false, last_changed := none }]
    lamps := [], leds := [], coils := [] }

/-- A game with one switch `s1` (number 7, closed, last changed at
t = 5). -/
def g2 : Game :=
  { switches := [{ name := "s1", number := 7, state := true, last_changed := some 5 }]
    lamps := [], leds := [], coils := [] }

/-- A game with one lamp, one LED and one coil, for the unknown-name
asymmetry. -/
def g3 : Game :=
  { switches := [], lamps := ["backlight"], leds := ["topLeftInsert"],
    coils := ["flipperCoil"] }

/-- An unbound state fresh out of `__init__` with no configured client
address. -/
def s_unbound : ModeState := init_state none 8000

/-- A state bound to `1.1.1.1:8000`, no resync pending. -/
def s_bound : ModeState :=
  { clientIP := some "1.1.1.1", clientPort := 8000, client_needs_sync := false,
    do_we_have_a_client := true, clientTuple := some ("1.1.1.1", 8000),
    last_loop_time := 1 }

/-- A bound state with a resync pending. -/
def s_sync : ModeState :=
  { clientIP := some "1.1.1.1", clientPort := 8000, client_needs_sync := true,
    do_we_have_a_client := true, clientTuple := some ("1.1.1.1", 8000),
    last_loop_time := 1 }

/-! ## Helper lemmas -/

theorem two_mul_lor_one (n : ℕ) : 2 * n ||| 1 = 2 * n + 1 := by
  have h := Nat.lor_bit false n true 0
  simpa [Nat.bit] using h

theorem shiftLeft_one_eq (n : ℕ) : n <<< 1 = 2 * n := by
  rw [Nat.shiftLeft_eq]
  ring

theorem popcount_zero : popcount 0 = 0 := by
  rw [popcount]
  simp

theorem popcount_two_mul (n : ℕ) : popcount (2 * n) = popcount n := by
  rcases Nat.eq_zero_or_pos n with h | h
  · subst h; rfl
  · rw [popcount]
    have h2 : ¬ (2 * n = 0) := by omega
    simp only [h2, dif_neg, not_false_iff]
    have : 2 * n % 2 = 0 := by omega
    rw [this, Nat.mul_div_cancel_left n (by norm_num : 0 < 2)]
    omega

theorem popcount_two_mul_add_one (n : ℕ) : popcount (2 * n + 1) = popcount n + 1 := by
  rw [popcount]
  have h2 : ¬ (2 * n + 1 = 0) := by omega
  simp only [h2, dif_neg, not_false_iff]
  have hm : (2 * n + 1) % 2 = 1 := by omega
  have hd : (2 * n + 1) / 2 = n := by omega
  rw [hm, hd]
  omega

/-- At duty cycle 0 the loop state never changes: `int(count)` stays 0
and no bit is ever set. -/
theorem maskIter_zero_eq (k : ℕ) :
    maskIter 0 k = { whole_num := 0, schedule := 0, count := 0 } := by
  induction k with
  | zero => rfl
  | succ k ih =>
    rw [maskIter, ih]
    simp [maskStep, pyint]

/-- At duty cycle 1 every iteration sets its bit, and the trailing
shift leaves `schedule = 2 ^ (k + 1) - 2` after `k` iterations. -/
theorem maskIter_one_eq (k : ℕ) :
    maskIter 1 k = { whole_num := (k : ℤ), schedule := 2 ^ (k + 1) - 2, count := (k : ℚ) } := by
  induction k with
  | zero => rfl
  | succ k ih =>
    rw [maskIter, ih]
    simp only [maskStep]
    have hp : pyint ((k : ℚ) + 1) = (k : ℤ) + 1 := by
      rw [pyint, if_pos (by positivity)]
      rw [show ((k:ℚ)+1) = (((k:ℤ)+1 : ℤ) : ℚ) by push_cast; ring, Int.floor_intCast]
    have hgt : pyint ((k : ℚ) + 1) > (k : ℤ) := by rw [hp]; omega
    rw [if_pos hgt]
    have hsched : (2 ^ (k + 1) - 2 ||| 1) <<< 1 = 2 ^ (k + 1 + 1) - 2 := by
      have h2 : (2:ℕ) ^ (k + 1) - 2 = 2 * (2 ^ k - 1) := by
        have : (1:ℕ) ≤ 2 ^ k := Nat.one_le_two_pow
        rw [pow_succ]
        omega
      rw [h2, two_mul_lor_one, shiftLeft_one_eq]
      have : (1:ℕ) ≤ 2 ^ k := Nat.one_le_two_pow
      rw [pow_succ, pow_succ]
      omega
    rw [hsched]
    congr 1
    all_goals push_cast
    all_goals ring

/-- The loop invariant of `convertToMask` for a duty cycle in [0,1]:
after `k` iterations the accumulator holds `k·d`, `whole_num` is
`⌊k·d⌋`, and `schedule` is an even number with exactly `⌊k·d⌋` set
bits. -/
theorem maskIter_invariant (d : ℚ) (h0 : 0 ≤ d) (h1 : d ≤ 1) (k : ℕ) :
    (maskIter d k).count = (k : ℚ) * d ∧
    (maskIter d k).whole_num = ⌊(k : ℚ) * d⌋ ∧
    ((popcount (maskIter d k).schedule : ℤ) = ⌊(k : ℚ) * d⌋) ∧
    (maskIter d k).schedule % 2 = 0 := by
  induction k with
  | zero =>
    refine ⟨by simp [maskIter], by simp [maskIter], ?_, by simp [maskIter]⟩
    simp [maskIter, popcount_zero]
  | succ k ih =>
    obtain ⟨hc, hw, hpc, hev⟩ := ih
    have hcast : ((k + 1 : ℕ) : ℚ) = (k : ℚ) + 1 := by push_cast; ring
    have hcount : (maskIter d k).count + d = ((k + 1 : ℕ) : ℚ) * d := by
      rw [hc, hcast]; ring
    have hnn : (0:ℚ) ≤ ((k + 1 : ℕ) : ℚ) * d := by positivity
    have hmono : ⌊(k : ℚ) * d⌋ ≤ ⌊((k + 1 : ℕ) : ℚ) * d⌋ := by
      apply Int.floor_le_floor
      rw [hcast]
      nlinarith
    have hub : ⌊((k + 1 : ℕ) : ℚ) * d⌋ ≤ ⌊(k : ℚ) * d⌋ + 1 := by
      have h : ((k + 1 : ℕ) : ℚ) * d ≤ (k : ℚ) * d + 1 := by rw [hcast]; nlinarith
      calc ⌊((k + 1 : ℕ) : ℚ) * d⌋ ≤ ⌊(k : ℚ) * d + 1⌋ := Int.floor_le_floor h
        _ = ⌊(k : ℚ) * d⌋ + 1 := Int.floor_add_one _
    have hpy : pyint ((maskIter d k).count + d) = ⌊((k + 1 : ℕ) : ℚ) * d⌋ := by
      rw [hcount, pyint, if_pos hnn]
    obtain ⟨t, ht⟩ : ∃ t, (maskIter d k).schedule = 2 * t :=
      ⟨(maskIter d k).schedule / 2, by omega⟩
    have hpt : (popcount t : ℤ) = ⌊(k : ℚ) * d⌋ := by
      rw [← hpc, ht, popcount_two_mul]
    rw [maskIter]
    simp only [maskStep]
    by_cases hgt : pyint ((maskIter d k).count + d) > (maskIter d k).whole_num
    · rw [if_pos hgt]
      dsimp only
      have heq : ⌊((k + 1 : ℕ) : ℚ) * d⌋ = ⌊(k : ℚ) * d⌋ + 1 := by
        rw [hpy, hw] at hgt
        omega
      refine ⟨hcount, ?_, ?_, ?_⟩
      · simpa [hw, heq] using heq.symm
      · have : ((maskIter d k).schedule ||| 1) <<< 1 = 2 * (2 * t + 1) := by
          rw [ht, two_mul_lor_one, shiftLeft_one_eq]
        rw [this, popcount_two_mul, popcount_two_mul_add_one, heq]
        push_cast
        omega
      · have : ((maskIter d k).schedule ||| 1) <<< 1 = 2 * (2 * t + 1) := by
          rw [ht, two_mul_lor_one, shiftLeft_one_eq]
        rw [this]
        omega
    · rw [if_neg hgt]
      dsimp only
      have heq : ⌊((k + 1 : ℕ) : ℚ) * d⌋ = ⌊(k : ℚ) * d⌋ := by
        rw [hpy, hw] at hgt
        omega
      refine ⟨hcount, by rw [hw, heq], ?_, ?_⟩
      · rw [shiftLeft_one_eq, popcount_two_mul, hpc, heq]
      · rw [shiftLeft_one_eq]
        omega

/-! ## C1: the brightness encoder -/

/-- C1 (amended): for a duty cycle `d ∈ [0,1]`, `convertToMask`
returns a mask whose popcount is `⌊32·d⌋` (truncation, not rounding);
`d = 0` yields mask 0; `d = 1` yields `2·(2^32 − 1)` — the loop shifts
once more after setting each bit, so the 32 set bits occupy bit
positions 1–32 and bit 0 is clear; and for every prefix length
`k ≤ 32` the popcount of the schedule after `k` slots is `⌊k·d⌋`,
which differs from `k·d` by less than 1. -/
theorem C1_convertToMask_floor (d : ℚ) (h0 : 0 ≤ d) (h1 : d ≤ 1) :
    ((popcount (convertToMask d) : ℤ) = ⌊(32 : ℚ) * d⌋) ∧
    convertToMask 0 = 0 ∧
    convertToMask 1 = 2 * (2 ^ 32 - 1) ∧
    (∀ k : ℕ, k ≤ 32 →
      ((popcount (maskIter d k).schedule : ℤ) = ⌊(k : ℚ) * d⌋ ∧
       |(popcount (maskIter d k).schedule : ℚ) - (k : ℚ) * d| < 1)) := by
  refine ⟨?_, ?_, ?_, ?_⟩
  · have h := (maskIter_invariant d h0 h1 32).2.2.1
    simpa [convertToMask] using h
  · rw [convertToMask, maskIter_zero_eq]
  · rw [convertToMask, maskIter_one_eq]
    norm_num
  · intro k _hk
    have h := (maskIter_invariant d h0 h1 k).2.2.1
    refine ⟨h, ?_⟩
    have hfl : ((popcount (maskIter d k).schedule : ℚ)) = ((⌊(k : ℚ) * d⌋ : ℤ) : ℚ) := by
      exact_mod_cast congrArg (fun z => ((z : ℤ) : ℚ)) h
    rw [hfl, abs_lt]
    constructor
    · have := Int.lt_floor_add_one ((k : ℚ) * d)
      linarith
    · have := Int.floor_le ((k : ℚ) * d)
      linarith

/-- C1 counterexample: at `d = 1` the code returns `2^33 − 2`, not the
claimed `2^32 − 1`; and at `d = 9/10` the popcount is `⌊28.8⌋ = 28`
while the claimed `round(0.9·32)` is 29. -/
theorem C1_counterexample :
    convertToMask 1 = 2 * (2 ^ 32 - 1) ∧
    2 * ((2 : ℕ) ^ 32 - 1) ≠ 2 ^ 32 - 1 ∧
    (popcount (convertToMask (9/10)) : ℤ) = 28 ∧
    round ((9/10 : ℚ) * 32) = 29 := by
  refine ⟨?_, by norm_num, ?_, by norm_num [round_eq]⟩
  · rw [convertToMask, maskIter_one_eq]
    norm_num
  · have h := (maskIter_invariant (9/10) (by norm_num) (by norm_num) 32).2.2.1
    rw [convertToMask, h]
    norm_num

/-- C1 witness: the amended theorem applied at `d = 1/2`. -/
theorem C1_witness :
    (0 : ℚ) ≤ 1/2 ∧ (1/2 : ℚ) ≤ 1 ∧
    (((popcount (convertToMask (1/2)) : ℤ) = ⌊(32 : ℚ) * (1/2)⌋) ∧
     convertToMask 0 = 0 ∧
     convertToMask 1 = 2 * (2 ^ 32 - 1) ∧
     (∀ k : ℕ, k ≤ 32 →
       ((popcount (maskIter (1/2) k).schedule : ℤ) = ⌊(k : ℚ) * (1/2)⌋ ∧
        |(popcount (maskIter (1/2) k).schedule : ℚ) - (k : ℚ) * (1/2)| < 1))) :=
  ⟨by norm_num, by norm_num, C1_convertToMask_floor (1/2) (by norm_num) (by norm_num)⟩

/-! ## C2: first contact binds but does not mark a resync -/

/-- C2 (amended): an unbound session receiving any non-refresh message
with a target binds: it marks the client present, takes the sender's
address (or the configured one, when set and non-empty) together with
the configured port — but it leaves `client_needs_sync` exactly as it
was; binding does not set the resync flag. -/
theorem C2_binding_no_resync (decode : String → ℕ) (g : Game) (s : ModeState)
    (parts : List String) (data : List ℚ) (ca : String × ℕ) (cat name : String)
    (hcat : parts[1]? = some cat) (href : cat ≠ "refresh")
    (hname : parts[2]? = some name)
    (hun : s.do_we_have_a_client = false) :
    (process_parts decode g s parts data ca).1.do_we_have_a_client = true ∧
    (process_parts decode g s parts data ca).1.client_needs_sync = s.client_needs_sync ∧
    (s.clientIP = none →
      (process_parts decode g s parts data ca).1.clientIP = some ca.1 ∧
      (process_parts decode g s parts data ca).1.clientTuple = some (ca.1, s.clientPort)) ∧
    (∀ ip, s.clientIP = some ip → ip ≠ "" →
      (process_parts decode g s parts data ca).1.clientIP = some ip ∧
      (process_parts decode g s parts data ca).1.clientTuple = some (ip, s.clientPort)) := by
  have hrefb : ¬ ((cat == "refresh") = true) := by simpa using href
  have hbind : bind_client s ca =
      { s with clientIP := some (match s.clientIP with
                | none => ca.1
                | some ip0 => if ip0 == "" then ca.1 else ip0),
               clientTuple := some ((match s.clientIP with
                | none => ca.1
                | some ip0 => if ip0 == "" then ca.1 else ip0), s.clientPort),
               do_we_have_a_client := true } := by
    rw [bind_client, if_neg (by simp [hun])]
  simp only [process_parts, hcat, hname, if_neg hrefb, hbind]
  refine ⟨trivial, trivial, ?_, ?_⟩
  · intro hip
    simp [hip]
  · intro ip hip hne
    simp [hip, hne]

/-- C2 counterexample: a first message `/sw/rollover1` from
`10.0.0.5` binds the unbound session but leaves `client_needs_sync`
false — the claim says it becomes true. -/
theorem C2_counterexample :
    (process_message dec0 g1 s_unbound "/sw/rollover1" [1]
        ("10.0.0.5", 9001)).1.do_we_have_a_client = true ∧
    (process_message dec0 g1 s_unbound "/sw/rollover1" [1]
        ("10.0.0.5", 9001)).1.clientIP = some "10.0.0.5" ∧
    (process_message dec0 g1 s_unbound "/sw/rollover1" [1]
        ("10.0.0.5", 9001)).1.client_needs_sync = false :=
  ⟨rfl, rfl, rfl⟩

/-- C2 witness: the amended theorem applied to the parts of
`/sw/rollover1` arriving at the fresh unbound state. -/
theorem C2_witness :
    (["", "sw", "rollover1"] : List String)[1]? = some "sw" ∧
    ("sw" : String) ≠ "refresh" ∧
    (["", "sw", "rollover1"] : List String)[2]? = some "rollover1" ∧
    s_unbound.do_we_have_a_client = false ∧
    ((process_parts dec0 g1 s_unbound ["", "sw", "rollover1"] [1]
        ("10.0.0.5", 9001)).1.do_we_have_a_client = true ∧
     (process_parts dec0 g1 s_unbound ["", "sw", "rollover1"] [1]
        ("10.0.0.5", 9001)).1.client_needs_sync = s_unbound.client_needs_sync ∧
     (s_unbound.clientIP = none →
       (process_parts dec0 g1 s_unbound ["", "sw", "rollover1"] [1]
          ("10.0.0.5", 9001)).1.clientIP = some "10.0.0.5" ∧
       (process_parts dec0 g1 s_unbound ["", "sw", "rollover1"] [1]
          ("10.0.0.5", 9001)).1.clientTuple = some ("10.0.0.5", s_unbound.clientPort)) ∧
     (∀ ip, s_unbound.clientIP = some ip → ip ≠ "" →
       (process_parts dec0 g1 s_unbound ["", "sw", "rollover1"] [1]
          ("10.0.0.5", 9001)).1.clientIP = some ip ∧
       (process_parts dec0 g1 s_unbound ["", "sw", "rollover1"] [1]
          ("10.0.0.5", 9001)).1.clientTuple = some (ip, s_unbound.clientPort))) :=
  ⟨rfl, by decide, rfl, rfl,
   C2_binding_no_resync dec0 g1 s_unbound ["", "sw", "rollover1"] [1]
     ("10.0.0.5", 9001) "sw" "rollover1" rfl (by decide) rfl rfl⟩

/-! ## C3: a resync tick also runs change detection -/

/-- C3 (amended): with a client bound and a resync pending, one
`mode_tick` run clears `client_needs_sync` and emits the full-sync
messages — exactly one `"sw"` message per known switch carrying its
boolean state as 1/0 — followed by the change-detection messages for
every switch whose `last_changed` is truthy and exceeds
`last_loop_time`; the count is exactly one message per switch only
when no switch qualifies for change detection. -/
theorem C3_resync_tick (g : Game) (s : ModeState) (now : ℚ)
    (hb : s.do_we_have_a_client = true) (hs : s.client_needs_sync = true) :
    (mode_tick g s now).1.client_needs_sync = false ∧
    (mode_tick g s now).2 =
      client_update_all_switches g ++ changed_switch_messages g s.last_loop_time ∧
    client_update_all_switches g =
      g.switches.map
        (fun sw => Effect.sendOSC "sw" sw.name (Val.num (if sw.state then 1 else 0))) ∧
    (changed_switch_messages g s.last_loop_time = [] →
      (mode_tick g s now).2.length = g.switches.length) := by
  rw [mode_tick, if_pos hb, if_pos hs]
  refine ⟨rfl, rfl, rfl, ?_⟩
  intro hnone
  dsimp only [client_update_all]
  rw [hnone]
  simp [client_update_all_switches]

/-- C3 counterexample: switch `s1` changed at t = 5 after the previous
tick at t = 1, so a resync tick sends its state twice — once from the
full sync and once from change detection — not exactly once. -/
theorem C3_counterexample :
    (mode_tick g2 s_sync 10).2 =
      [Effect.sendOSC "sw" "s1" (Val.num 1), Effect.sendOSC "sw" "s1" (Val.num 1)] ∧
    g2.switches.length = 1 ∧
    (mode_tick g2 s_sync 10).2.length ≠ g2.switches.length := ⟨rfl, rfl, by decide⟩

/-- C3 witness: the amended theorem applied to `g1` (whose only switch
never changed) in the pending-resync state. -/
theorem C3_witness :
    s_sync.do_we_have_a_client = true ∧
    s_sync.client_needs_sync = true ∧
    ((mode_tick g1 s_sync 10).1.client_needs_sync = false ∧
     (mode_tick g1 s_sync 10).2 =
       client_update_all_switches g1 ++ changed_switch_messages g1 s_sync.last_loop_time ∧
     client_update_all_switches g1 =
       g1.switches.map
         (fun sw => Effect.sendOSC "sw" sw.name (Val.num (if sw.state then 1 else 0))) ∧
     (changed_switch_messages g1 s_sync.last_loop_time = [] →
       (mode_tick g1 s_sync 10).2.length = g1.switches.length)) :=
  ⟨rfl, rfl, C3_resync_tick g1 s_sync 10 rfl rfl⟩

/-! ## C4: the tick timestamp is only recorded while a client is bound -/

/-- C4 (amended): `mode_tick` records `now` as the new
`last_loop_time` at the end of the call when a client is bound; when no
client is bound the entire tick body is skipped — no messages are sent
and `last_loop_time` is left unchanged too, since the assignment sits
inside `if self.do_we_have_a_client:`. -/
theorem C4_tick_timestamp (g : Game) (s : ModeState) (now : ℚ) :
    (s.do_we_have_a_client = true → (mode_tick g s now).1.last_loop_time = now) ∧
    (s.do_we_have_a_client = false → mode_tick g s now = (s, [])) := by
  constructor
  · intro hb
    rw [mode_tick, if_pos hb]
  · intro hn
    rw [mode_tick, if_neg (by simp [hn])]

/-- C4 counterexample: an unbound tick at `now = 7` leaves
`last_loop_time` at its old value 1 — the claim says the current time
is recorded even while unbound. -/
theorem C4_counterexample :
    mode_tick g2 s_unbound 7 = (s_unbound, []) ∧
    s_unbound.last_loop_time = 1 ∧ (1 : ℚ) ≠ 7 := ⟨rfl, rfl, by norm_num⟩

/-- C4 witness: the bound half at `s_bound`, the unbound half at
`s_unbound`, both at `now = 3`. -/
theorem C4_witness :
    (mode_tick g1 s_bound 3).1.last_loop_time = 3 ∧
    mode_tick g1 s_unbound 3 = (s_unbound, []) :=
  ⟨(C4_tick_timestamp g1 s_bound 3).1 rfl, (C4_tick_timestamp g1 s_unbound 3).2 rfl⟩

/-! ## C5: switch message dispatch -/

/-- C5: a switch message with payload 1.0 appends exactly one
switch-closed debounced event carrying the resolved number, payload 0.0
exactly one switch-open event, and any other payload value appends no
event and raises nothing; the number resolves by exact registry name
with `pinproc.decode` as fallback. -/
theorem C5_process_switch (decode : String → ℕ) (g : Game) (name : String)
    (rest : List ℚ) :
    process_switch decode g name (1 :: rest) =
      Except.ok [Effect.keyEvent EventType.switchClosedDebounced (switch_number decode g name)] ∧
    process_switch decode g name (0 :: rest) =
      Except.ok [Effect.keyEvent EventType.switchOpenDebounced (switch_number decode g name)] ∧
    (∀ d : ℚ, d ≠ 1 → d ≠ 0 → process_switch decode g name (d :: rest) = Except.ok []) ∧
    (∀ sw, g.switches.find? (fun s0 => s0.name == name) = some sw →
      switch_number decode g name = sw.number) ∧
    (g.switches.find? (fun s0 => s0.name == name) = none →
      switch_number decode g name = decode name) := by
  refine ⟨?_, ?_, ?_, ?_, ?_⟩
  · rw [process_switch]
    norm_num
  · rw [process_switch]
    norm_num
  · intro d h1 h0
    rw [process_switch]
    simp only [List.getElem?_cons_zero]
    rw [if_neg h1, if_neg h0]
  · intro sw hsw
    rw [switch_number, hsw]
  · intro hnone
    rw [switch_number, hnone]

/-- C5 witness: payloads 1.0, 0.0 and 0.5 on `rollover1`, which
resolves through the registry of `g1` to number 3. -/
theorem C5_witness :
    process_switch dec0 g1 "rollover1" [1] =
      Except.ok [Effect.keyEvent EventType.switchClosedDebounced
        (switch_number dec0 g1 "rollover1")] ∧
    process_switch dec0 g1 "rollover1" [0] =
      Except.ok [Effect.keyEvent EventType.switchOpenDebounced
        (switch_number dec0 g1 "rollover1")] ∧
    (1/2 : ℚ) ≠ 1 ∧ (1/2 : ℚ) ≠ 0 ∧
    process_switch dec0 g1 "rollover1" [1/2] = Except.ok [] :=
  ⟨(C5_process_switch dec0 g1 "rollover1" []).1,
   (C5_process_switch dec0 g1 "rollover1" []).2.1,
   by norm_num, by norm_num,
   (C5_process_switch dec0 g1 "rollover1" []).2.2.1 (1/2) (by norm_num) (by norm_num)⟩

/-! ## C6: LED message handling -/

/-- C6: whenever `process_LED` completes without an exception it sends
exactly one `led-label` reply; the composite target `"+8-60"` with
payload 1.0 resolves to board 8, output 60, brightness 255; a plain
known target resolves by registry lookup with brightness
`int(payload·255)`. -/
theorem C6_process_LED (g : Game) :
    (∀ rest : List ℚ, process_LED g "+8-60" (1 :: rest) =
      Except.ok [Effect.prledColor 8 60 255,
        Effect.sendOSC "led-label" "+8-60" (Val.num 255)]) ∧
    (∀ (LED : String) (data : List ℚ) (effs : List Effect),
      process_LED g LED data = Except.ok effs →
      effs.countP isLedLabelMsg = 1) ∧
    (∀ (LED : String) (d : ℚ) (rest : List ℚ),
      startsWithPlus LED = false → g.leds.contains LED = true →
      process_LED g LED (d :: rest) =
        Except.ok [Effect.ledColor LED [pyint (d * 255)],
          Effect.sendOSC "led-label" LED (Val.list [pyint (d * 255)])]) := by
  refine ⟨?_, ?_, ?_⟩
  · intro rest
    simp only [process_LED]
    norm_num
    rfl
  · intro LED data effs hok
    rw [process_LED] at hok
    cases hd : data[0]? with
    | none => rw [hd] at hok; simp at hok
    | some d =>
      rw [hd] at hok
      dsimp only at hok
      by_cases hplus : startsWithPlus LED = true
      · rw [if_pos hplus] at hok
        cases h0 : (pysplit (pystrip_plus LED) '-')[0]? with
        | none => rw [h0] at hok; simp at hok
        | some b0 =>
          rw [h0] at hok
          dsimp only at hok
          cases hb : pyParseInt b0 with
          | error e => rw [hb] at hok; simp at hok
          | ok board =>
            rw [hb] at hok
            cases h1 : (pysplit (pystrip_plus LED) '-')[1]? with
            | none => rw [h1] at hok; simp at hok
            | some o0 =>
              rw [h1] at hok
              dsimp only at hok
              cases ho : pyParseInt o0 with
              | error e => rw [ho] at hok; simp at hok
              | ok output =>
                rw [ho] at hok
                simp only [Except.ok.injEq] at hok
                subst hok
                simp [List.countP_cons, isLedLabelMsg]
      · rw [if_neg hplus] at hok
        by_cases hmem : g.leds.contains LED = true
        · rw [if_pos hmem] at hok
          simp only [Except.ok.injEq] at hok
          subst hok
          simp [List.countP_cons, isLedLabelMsg]
        · rw [if_neg hmem] at hok
          simp at hok
  · intro LED d rest hplus hmem
    rw [process_LED]
    simp only [List.getElem?_cons_zero]
    rw [if_neg (by rw [hplus]; simp), if_pos hmem]

/-- C6 witness: the composite form applied with payload 1.0, and the
named form `topLeftInsert` of `g3` with payload 0.0. -/
theorem C6_witness :
    process_LED g3 "+8-60" [1] =
      Except.ok [Effect.prledColor 8 60 255,
        Effect.sendOSC "led-label" "+8-60" (Val.num 255)] ∧
    startsWithPlus "topLeftInsert" = false ∧
    g3.leds.contains "topLeftInsert" = true ∧
    process_LED g3 "topLeftInsert" [0] =
      Except.ok [Effect.ledColor "topLeftInsert" [pyint ((0 : ℚ) * 255)],
        Effect.sendOSC "led-label" "topLeftInsert" (Val.list [pyint ((0 : ℚ) * 255)])] :=
  ⟨(C6_process_LED g3).1 [], rfl, rfl,
   (C6_process_LED g3).2.2 "topLeftInsert" 0 [] rfl rfl⟩

/-! ## C7: no rebinding while bound -/

/-- C7 (amended): while a client is bound, every inbound message —
from whatever address — leaves the bound address untouched: the binding
block is guarded by `if not self.do_we_have_a_client` and is skipped
entirely, so there is no rebinding (and no unbind operation either). -/
theorem C7_no_rebind (decode : String → ℕ) (g : Game) (s : ModeState)
    (parts : List String) (data : List ℚ) (ca : String × ℕ)
    (hb : s.do_we_have_a_client = true) :
    (process_parts decode g s parts data ca).1.clientIP = s.clientIP ∧
    (process_parts decode g s parts data ca).1.clientTuple = s.clientTuple ∧
    (process_parts decode g s parts data ca).1.do_we_have_a_client = true := by
  cases h1 : parts[1]? with
  | none => rw [process_parts, h1]; exact ⟨rfl, rfl, hb⟩
  | some cat =>
    rw [process_parts, h1]
    dsimp only
    by_cases hr : (cat == "refresh") = true
    · rw [if_pos hr]
      exact ⟨rfl, rfl, hb⟩
    · rw [if_neg hr]
      cases h2 : parts[2]? with
      | none => exact ⟨rfl, rfl, hb⟩
      | some name =>
        have hbc : bind_client s ca = s := by rw [bind_client, if_pos hb]
        rw [hbc]
        exact ⟨rfl, rfl, hb⟩

/-- C7 counterexample: a bound session (client `1.1.1.1`) receiving
`/sw/rollover1` from `2.2.2.2` keeps its state unchanged — the claim
says the bound address is overwritten by the new sender. -/
theorem C7_counterexample :
    (process_message dec0 g1 s_bound "/sw/rollover1" [1] ("2.2.2.2", 9001)).1 = s_bound ∧
    s_bound.clientIP = some "1.1.1.1" ∧
    s_bound.clientIP ≠ some "2.2.2.2" := ⟨rfl, rfl, by decide⟩

/-- C7 witness: the amended theorem applied to the bound state and a
message from a different sender. -/
theorem C7_witness :
    s_bound.do_we_have_a_client = true ∧
    ((process_parts dec0 g1 s_bound ["", "sw", "rollover1"] [1]
        ("2.2.2.2", 9001)).1.clientIP = s_bound.clientIP ∧
     (process_parts dec0 g1 s_bound ["", "sw", "rollover1"] [1]
        ("2.2.2.2", 9001)).1.clientTuple = s_bound.clientTuple ∧
     (process_parts dec0 g1 s_bound ["", "sw", "rollover1"] [1]
        ("2.2.2.2", 9001)).1.do_we_have_a_client = true) :=
  ⟨rfl, C7_no_rebind dec0 g1 s_bound ["", "sw", "rollover1"] [1] ("2.2.2.2", 9001) rfl⟩

/-! ## C8: refresh is idempotent -/

/-- C8: a refresh message only sets `client_needs_sync` and returns, so
processing it twice gives exactly the state of processing it once (the
flag is simply true), and the next bound tick performs the one full
sync and clears the flag. -/
theorem C8_refresh_idempotent (decode : String → ℕ) (g : Game) (s : ModeState)
    (data data2 : List ℚ) (ca ca2 : String × ℕ) :
    process_message decode g s "/refresh" data ca =
      ({ s with client_needs_sync := true }, Except.ok []) ∧
    process_message decode g { s with client_needs_sync := true } "/refresh" data2 ca2 =
      ({ s with client_needs_sync := true }, Except.ok []) ∧
    ({ s with client_needs_sync := true } : ModeState).client_needs_sync = true ∧
    (∀ now, s.do_we_have_a_client = true →
      mode_tick g { s with client_needs_sync := true } now =
        ({ s with client_needs_sync := false, last_loop_time := now },
         client_update_all_switches g ++ changed_switch_messages g s.last_loop_time)) := by
  refine ⟨rfl, rfl, rfl, ?_⟩
  intro now hb
  rw [mode_tick, if_pos hb]
  rfl

/-- C8 witness: two refreshes on the bound, already-synced state, then
the tick at `now = 2`. -/
theorem C8_witness :
    process_message dec0 g1 s_bound "/refresh" [] ("1.1.1.1", 9001) =
      ({ s_bound with client_needs_sync := true }, Except.ok []) ∧
    process_message dec0 g1 { s_bound with client_needs_sync := true } "/refresh" []
        ("1.1.1.1", 9001) =
      ({ s_bound with client_needs_sync := true }, Except.ok []) ∧
    ({ s_bound with client_needs_sync := true } : ModeState).client_needs_sync = true ∧
    mode_tick g1 { s_bound with client_needs_sync := true } 2 =
      ({ s_bound with client_needs_sync := false, last_loop_time := 2 },
       client_update_all_switches g1 ++ changed_switch_messages g1 s_bound.last_loop_time) :=
  ⟨(C8_refresh_idempotent dec0 g1 s_bound [] [] ("1.1.1.1", 9001) ("1.1.1.1", 9001)).1,
   (C8_refresh_idempotent dec0 g1 s_bound [] [] ("1.1.1.1", 9001) ("1.1.1.1", 9001)).2.1,
   (C8_refresh_idempotent dec0 g1 s_bound [] [] ("1.1.1.1", 9001) ("1.1.1.1", 9001)).2.2.1,
   (C8_refresh_idempotent dec0 g1 s_bound [] [] ("1.1.1.1", 9001) ("1.1.1.1", 9001)).2.2.2 2 rfl⟩

/-! ## C9: unknown-device handling -/

/-- C9 (amended): the four handlers treat unknown names four different
ways — an unknown lamp logs a warning and does nothing else; an
unknown coil fails its membership guard and does nothing at all (no
warning, no error); an unknown plain-form LED hits the unguarded
registry lookup and raises `KeyError`; an unknown switch never touches
the registry unguarded — it falls back to `pinproc.decode`. -/
theorem C9_unknown_device (decode : String → ℕ) (g : Game) (name : String)
    (data : List ℚ) (d : ℚ) (rest : List ℚ)
    (hlamp : g.lamps.contains name = false) (hcoil : g.coils.contains name = false)
    (hplus : startsWithPlus name = false) (hled : g.leds.contains name = false)
    (hsw : g.switches.find? (fun s0 => s0.name == name) = none) :
    process_lamp g name data = Except.ok [Effect.logWarning name] ∧
    process_coil g name data = Except.ok [] ∧
    process_LED g name (d :: rest) = Except.error "KeyError" ∧
    switch_number decode g name = decode name := by
  refine ⟨?_, ?_, ?_, ?_⟩
  · rw [process_lamp, if_neg (by rw [hlamp]; simp)]
  · rw [process_coil, if_neg (by rw [hcoil]; simp)]
  · rw [process_LED]
    simp only [List.getElem?_cons_zero]
    rw [if_neg (by rw [hplus]; simp), if_neg (by rw [hled]; simp)]
  · rw [switch_number, hsw]

/-- C9 counterexample: the unknown coil `ghost` does not raise — the
guarded lookup makes the call a silent no-op, against the claim that
unknown switch/coil/LED names raise a lookup failure; the unknown
switch `ghost` likewise falls back to decode (number 7) instead of
raising. -/
theorem C9_counterexample :
    process_coil g3 "ghost" [1] = Except.ok [] ∧
    process_lamp g3 "ghost" [1] = Except.ok [Effect.logWarning "ghost"] ∧
    process_switch dec7 g3 "ghost" [1] =
      Except.ok [Effect.keyEvent EventType.switchClosedDebounced 7] := ⟨rfl, rfl, rfl⟩

/-- C9 witness: the amended theorem applied to the unknown name
`ghost` against `g3`. -/
theorem C9_witness :
    g3.lamps.contains "ghost" = false ∧
    g3.coils.contains "ghost" = false ∧
    startsWithPlus "ghost" = false ∧
    g3.leds.contains "ghost" = false ∧
    g3.switches.find? (fun s0 => s0.name == "ghost") = none ∧
    (process_lamp g3 "ghost" [1] = Except.ok [Effect.logWarning "ghost"] ∧
     process_coil g3 "ghost" [1] = Except.ok [] ∧
     process_LED g3 "ghost" ((1 : ℚ) :: []) = Except.error "KeyError" ∧
     switch_number dec7 g3 "ghost" = dec7 "ghost") :=
  ⟨rfl, rfl, rfl, rfl, rfl,
   C9_unknown_device dec7 g3 "ghost" [1] 1 [] rfl rfl rfl rfl rfl⟩

/-! ## C10: the broken convertToMask call site -/

/-- C10: for a known lamp and a payload strictly between 0 and 1,
`process_lamp` reaches `self.convertToMask(data[0])`, which passes two
arguments (`self` and the value) to the one-parameter `convertToMask`
and raises `TypeError` — the branch is reachable under well-formed
input. -/
theorem C10_lamp_type_error (g : Game) (name : String) (d : ℚ) (rest : List ℚ)
    (hl : g.lamps.contains name = true) (h0 : 0 < d) (h1 : d < 1) :
    process_lamp g name (d :: rest) = Except.error "TypeError" := by
  rw [process_lamp, if_pos hl]
  simp only [List.getElem?_cons_zero]
  rw [if_neg (by linarith), if_neg h0.ne']

/-- C10 witness: the known lamp `backlight` of `g3` with payload
0.5. -/
theorem C10_witness :
    g3.lamps.contains "backlight" = true ∧
    (0 : ℚ) < 1/2 ∧ (1/2 : ℚ) < 1 ∧
    process_lamp g3 "backlight" [1/2] = Except.error "TypeError" :=
  ⟨rfl, by norm_num, by norm_num,
   C10_lamp_type_error g3 "backlight" (1/2) [] rfl (by norm_num) (by norm_num)⟩

end OSCMode
